import Mathlib

/-!
Verification of the EAE_Firmware cooling-control core.

Shallow embedding of the C++ sources:
  - `src/pid_controller.cpp` / `include/pid_controller.h`   (PID controller)
  - `include/state_machine.h`                               (generic guarded state machine)
  - `src/cooling_system.cpp` / `include/cooling_system.h`   (cooling supervisor)
  - `src/canbus_simulator.cpp` / `include/canbus_simulator.h` (message bus)

Doubles are embedded as rationals (`ℚ`), machine integers as `ℕ`/`ℤ`,
and the monotonic clock as an explicit `now : ℚ` argument threaded through
the operations that read `std::chrono::steady_clock::now()`.
-/

namespace EAE

/-- `std::clamp(v, lo, hi)`: `v < lo ? lo : (hi < v ? hi : v)`. -/
def clampQ (v lo hi : ℚ) : ℚ :=
  if v < lo then lo else if hi < v then hi else v

/-- Round-half-up rounding of a rational to an integer. -/
def roundQ (x : ℚ) : ℤ := ⌊x + 1/2⌋

/-- `static_cast<int>` applied to a C++ `double`: truncation toward zero
(floor for nonnegative values, ceiling for negative ones). -/
def cppTruncToInt (x : ℚ) : ℤ := if 0 ≤ x then ⌊x⌋ else ⌈x⌉

/-! ## PID controller (`pid_controller.cpp`) -/

/-- `PIDController::Parameters` (pid_controller.h lines 15-24). -/
structure Parameters where
  kp : ℚ
  ki : ℚ
  kd : ℚ
  setpoint : ℚ
  outputMin : ℚ
  outputMax : ℚ
  integralMin : ℚ
  integralMax : ℚ
deriving Repr, DecidableEq

/-- The state of a `PIDController` (pid_controller.h lines 37-43).
`lastTime` holds the clock reading stored by the previous `calculate` call. -/
structure PIDController where
  params : Parameters
  integral : ℚ
  lastError : ℚ
  derivative : ℚ
  lastTime : ℚ
  firstRun : Bool
deriving Repr, DecidableEq

/-- The constructor `PIDController(params)` (pid_controller.cpp lines 11-13):
integral, lastError and derivative start at 0 and `firstRun` is true.
`lastTime_` is default-constructed (it is never read while `firstRun` holds);
we model it as 0. -/
def PIDController.init (params : Parameters) : PIDController :=
  ⟨params, 0, 0, 0, 0, true⟩

/-- `PIDController::calculate` (pid_controller.cpp lines 15-50), with the
call to `steady_clock::now()` made explicit as the argument `now`. -/
def PIDController.calculate (c : PIDController) (now processValue : ℚ) :
    ℚ × PIDController :=
  let error := c.params.setpoint - processValue
  let dt : ℚ := if c.firstRun then 1/10 else now - c.lastTime
  let pTerm := c.params.kp * error
  let integral := clampQ (c.integral + error * dt) c.params.integralMin c.params.integralMax
  let iTerm := c.params.ki * integral
  let derivative := if c.firstRun = false ∧ 0 < dt then (error - c.lastError) / dt else c.derivative
  let dTerm := c.params.kd * derivative
  let output := clampQ (pTerm + iTerm + dTerm) c.params.outputMin c.params.outputMax
  (output, { c with integral := integral, lastError := error, derivative := derivative,
                    lastTime := now, firstRun := false })

/-- `PIDController::reset` (pid_controller.cpp lines 52-57). -/
def PIDController.reset (c : PIDController) : PIDController :=
  { c with integral := 0, lastError := 0, derivative := 0, firstRun := true }

/-- `PIDController::setSetpoint` (pid_controller.cpp lines 59-61). -/
def PIDController.setSetpoint (c : PIDController) (s : ℚ) : PIDController :=
  { c with params := { c.params with setpoint := s } }

/-- The `calculate` algorithm exactly as the claim states it, step by step:
dt from the first-call flag, error, clamped integral, conditional derivative,
clamped output, then the state update.  This definition follows the words of
the claim; it is compared with the source translation above. -/
def PIDController.calculateSpec (c : PIDController) (now processValue : ℚ) :
    ℚ × PIDController :=
  let dt : ℚ := if c.firstRun then 1/10 else now - c.lastTime
  let error := c.params.setpoint - processValue
  let integral := clampQ (c.integral + error * dt) c.params.integralMin c.params.integralMax
  let derivative := if c.firstRun = false ∧ 0 < dt then (error - c.lastError) / dt else c.derivative
  let output := clampQ (c.params.kp * error + c.params.ki * integral + c.params.kd * derivative)
      c.params.outputMin c.params.outputMax
  (output, { c with integral := integral, lastError := error, derivative := derivative,
                    lastTime := now, firstRun := false })

/-- A sequence of `calculate` calls: each input is a pair (clock reading,
process value); returns the list of outputs and the final controller state. -/
def PIDController.run (c : PIDController) : List (ℚ × ℚ) → List ℚ × PIDController
  | [] => ([], c)
  | (now, pv) :: rest =>
      let r := c.calculate now pv
      let rs := r.2.run rest
      (r.1 :: rs.1, rs.2)

/-! ## Generic state machine (`state_machine.h`) -/

/-- The per-state handler pair stored by `addState` (state_machine.h lines 97-100).
Callbacks are value transformers on an abstract context type `C` (the C++
lambdas capture the supervisor's fields by reference). -/
structure StateHandlers (C : Type) where
  onEnter : Option (C → C)
  onExit : Option (C → C)

/-- `StateMachine::Transition` (state_machine.h lines 39-45). -/
structure Transition (S E C : Type) where
  fromState : S
  event : E
  toState : S
  guard : Option (C → E → Bool)
  action : Option (C → C)

/-- A `StateMachine<StateType, EventType>`: the current state plus the lookup
semantics of the two maps filled by `addState` and `addTransition`. -/
structure StateMachine (S E C : Type) where
  currentState : S
  states : S → Option (StateHandlers C)
  transitions : S → E → Option (Transition S E C)

/-- A record of one callback invocation, used to observe which callbacks
`processEvent` runs and in which order. -/
inductive CallbackCall (S : Type) where
  | exited (s : S)
  | acted
  | entered (s : S)
deriving DecidableEq, Repr

/-- Apply an optional callback (absent callbacks are skipped). -/
def optApply {C : Type} : Option (C → C) → C → C
  | some f, c => f c
  | none, c => c

/-- The log entries produced by an optional callback: one entry when the
callback is present, none otherwise. -/
def optCalls {C S : Type} : Option (C → C) → CallbackCall S → List (CallbackCall S)
  | some _, l => [l]
  | none, _ => []

/-- The `onExit` handler registered for a state, if any
(`states_.find(...)` followed by the null check, state_machine.h lines 74-77). -/
def StateMachine.exitHandler {S E C : Type} (m : StateMachine S E C) (s : S) :
    Option (C → C) :=
  (m.states s).bind StateHandlers.onExit

/-- The `onEnter` handler registered for a state, if any
(state_machine.h lines 86-89). -/
def StateMachine.enterHandler {S E C : Type} (m : StateMachine S E C) (s : S) :
    Option (C → C) :=
  (m.states s).bind StateHandlers.onEnter

/-- The success path of `processEvent` once lookup and guard have passed
(state_machine.h lines 73-91): exit the current state, run the transition
action, update `currentState`, enter the new state, return true.  Also
returns the ordered log of the callbacks that ran. -/
def StateMachine.fire {S E C : Type} (m : StateMachine S E C) (t : Transition S E C)
    (ctx : C) : Bool × StateMachine S E C × C × List (CallbackCall S) :=
  let exitH := m.exitHandler m.currentState
  let ctx1 := optApply exitH ctx
  let log1 := optCalls exitH (CallbackCall.exited m.currentState)
  let ctx2 := optApply t.action ctx1
  let log2 := optCalls t.action CallbackCall.acted
  let m2 := { m with currentState := t.toState }
  let enterH := m2.enterHandler t.toState
  let ctx3 := optApply enterH ctx2
  let log3 := optCalls enterH (CallbackCall.entered t.toState)
  (true, m2, ctx3, log1 ++ log2 ++ log3)

/-- `StateMachine::processEvent` (state_machine.h lines 58-92). -/
def StateMachine.processEvent {S E C : Type} (m : StateMachine S E C) (event : E)
    (ctx : C) : Bool × StateMachine S E C × C × List (CallbackCall S) :=
  match m.transitions m.currentState event with
  | none => (false, m, ctx, [])
  | some t =>
    match t.guard with
    | some g => if g ctx event = false then (false, m, ctx, []) else m.fire t ctx
    | none => m.fire t ctx

/-! ## Cooling supervisor (`cooling_system.cpp`) -/

/-- `SystemState` (cooling_system.h lines 32-38). -/
inductive SystemState where
  | OFF
  | INITIALIZING
  | RUNNING
  | ERROR
  | EMERGENCY_STOP
deriving DecidableEq, Repr

/-- `SystemEvent` (cooling_system.h lines 40-49). -/
inductive SystemEvent where
  | IGNITION_ON
  | IGNITION_OFF
  | INIT_COMPLETE
  | LOW_COOLANT
  | OVER_TEMP
  | CRITICAL_TEMP
  | ERROR_CLEARED
  | TEMP_NORMAL
deriving DecidableEq, Repr

/-- `CoolingSystem::Config` with its default member values
(cooling_system.h lines 53-66). -/
structure Config where
  tempMin : ℚ := 50
  tempTarget : ℚ := 65
  tempMax : ℚ := 75
  tempCritical : ℚ := 85
  fanStartTemp : ℚ := 60
  tempSensorId : Nat := 0x100
  levelSensorId : Nat := 0x101
  ignitionId : Nat := 0x102
  pumpControlId : Nat := 0x200
  fanControlId : Nat := 0x201
deriving Repr, DecidableEq

/-- The mutable supervisor fields of `CoolingSystem`
(cooling_system.h lines 99-104 plus the owned `fanPID_`).  These are the
fields the state-machine callbacks capture and mutate. -/
structure CoolingCtx where
  currentTemp : ℚ
  levelOk : Bool
  ignition : Bool
  pumpOn : Bool
  fanOn : Bool
  fanSpeed : ℤ
  fanPID : PIDController
deriving Repr, DecidableEq

/-- The onEnter actions installed by `setupStateMachine`
(cooling_system.cpp lines 95-165).  Debug printing and `updateOutputs` (which
only emits bus frames and does not change any supervisor field) are omitted;
the thread spawned by the INITIALIZING entry action is modelled by the
separate `postInitComplete` input below. -/
def coolingOnEnter : SystemState → CoolingCtx → CoolingCtx
  | SystemState.OFF, c => { c with pumpOn := false, fanOn := false, fanSpeed := 0 }
  | SystemState.INITIALIZING, c => { c with pumpOn := true }
  | SystemState.RUNNING, c => c
  | SystemState.ERROR, c => { c with pumpOn := false, fanOn := false, fanSpeed := 0 }
  | SystemState.EMERGENCY_STOP, c =>
      { c with pumpOn := false, fanOn := true, fanSpeed := 100 }

/-- The state-handler table built by the five `addState` calls: every state
has an onEnter handler and a null onExit handler. -/
def coolingStates : SystemState → Option (StateHandlers CoolingCtx) :=
  fun s => some ⟨some (coolingOnEnter s), none⟩

/-- The transition table built by the seven `addTransition` calls
(cooling_system.cpp lines 168-209). -/
def coolingTransitions :
    SystemState → SystemEvent → Option (Transition SystemState SystemEvent CoolingCtx)
  | SystemState.OFF, SystemEvent.IGNITION_ON =>
      some ⟨SystemState.OFF, SystemEvent.IGNITION_ON, SystemState.INITIALIZING,
            some (fun c _ => c.levelOk), none⟩
  | SystemState.INITIALIZING, SystemEvent.INIT_COMPLETE =>
      some ⟨SystemState.INITIALIZING, SystemEvent.INIT_COMPLETE, SystemState.RUNNING,
            none, none⟩
  | SystemState.RUNNING, SystemEvent.IGNITION_OFF =>
      some ⟨SystemState.RUNNING, SystemEvent.IGNITION_OFF, SystemState.OFF, none, none⟩
  | SystemState.RUNNING, SystemEvent.LOW_COOLANT =>
      some ⟨SystemState.RUNNING, SystemEvent.LOW_COOLANT, SystemState.ERROR, none, none⟩
  | SystemState.RUNNING, SystemEvent.CRITICAL_TEMP =>
      some ⟨SystemState.RUNNING, SystemEvent.CRITICAL_TEMP, SystemState.EMERGENCY_STOP,
            none, none⟩
  | SystemState.ERROR, SystemEvent.ERROR_CLEARED =>
      some ⟨SystemState.ERROR, SystemEvent.ERROR_CLEARED, SystemState.INITIALIZING,
            some (fun c _ => c.ignition), none⟩
  | SystemState.EMERGENCY_STOP, SystemEvent.TEMP_NORMAL =>
      some ⟨SystemState.EMERGENCY_STOP, SystemEvent.TEMP_NORMAL, SystemState.ERROR,
            none, none⟩
  | _, _ => none

/-- The whole supervisor: the state machine's current state plus the
captured context fields. -/
structure CoolingSystem where
  sysState : SystemState
  ctx : CoolingCtx
deriving Repr, DecidableEq

/-- The `stateMachine_` member as a `StateMachine` value at the supervisor's
current state. -/
def CoolingSystem.machine (s : CoolingSystem) :
    StateMachine SystemState SystemEvent CoolingCtx :=
  ⟨s.sysState, coolingStates, coolingTransitions⟩

/-- `stateMachine_.processEvent(e)` as seen by the supervisor: run the generic
engine and keep the resulting current state and context. -/
def CoolingSystem.processEvent (s : CoolingSystem) (e : SystemEvent) : CoolingSystem :=
  let r := s.machine.processEvent e s.ctx
  ⟨r.2.1.currentState, r.2.2.1⟩

/-- The detached thread spawned by the INITIALIZING entry action
(cooling_system.cpp lines 119-127): after its 2 s sleep it posts
`INIT_COMPLETE` only if the machine is still in INITIALIZING. -/
def CoolingSystem.postInitComplete (s : CoolingSystem) : CoolingSystem :=
  if s.sysState = SystemState.INITIALIZING then s.processEvent SystemEvent.INIT_COMPLETE
  else s

/-- `CoolingSystem::handleTemperature` (cooling_system.cpp lines 253-285).
`state` is the snapshot of the current state taken before any transition;
the source re-uses this snapshot to gate the fan-control block after the
CRITICAL_TEMP / TEMP_NORMAL processing.  `now` is the clock reading the PID
obtains inside `calculate`.  `updateOutputs` only emits bus frames and is
omitted. -/
def CoolingSystem.handleTemperature (cfg : Config) (s0 : CoolingSystem)
    (now temp : ℚ) : CoolingSystem :=
  let s1 : CoolingSystem := { s0 with ctx := { s0.ctx with currentTemp := temp } }
  let state := s1.sysState
  let s2 :=
    if cfg.tempCritical < temp ∧ state = SystemState.RUNNING then
      s1.processEvent SystemEvent.CRITICAL_TEMP
    else if temp < cfg.tempMax ∧ state = SystemState.EMERGENCY_STOP then
      s1.processEvent SystemEvent.TEMP_NORMAL
    else s1
  if state = SystemState.RUNNING then
    if cfg.fanStartTemp < temp then
      let r := s2.ctx.fanPID.calculate now temp
      { s2 with ctx := { s2.ctx with fanOn := true, fanSpeed := cppTruncToInt r.1,
                                     fanPID := r.2 } }
    else if temp < cfg.fanStartTemp - 5 then
      { s2 with ctx := { s2.ctx with fanOn := false, fanSpeed := 0,
                                     fanPID := s2.ctx.fanPID.reset } }
    else s2
  else s2

/-- The level-sensor handler registered for `config_.levelSensorId`
(cooling_system.cpp lines 223-234).  Payload bytes are naturals below 256. -/
def CoolingSystem.handleLevelFrame (s : CoolingSystem) (data : List Nat) : CoolingSystem :=
  if 1 ≤ data.length then
    let newLevel : Bool := data.getD 0 0 != 0
    if newLevel ≠ s.ctx.levelOk then
      let s1 : CoolingSystem := { s with ctx := { s.ctx with levelOk := newLevel } }
      if newLevel = false ∧ s1.sysState = SystemState.RUNNING then
        s1.processEvent SystemEvent.LOW_COOLANT
      else s1
    else s
  else s

/-- The ignition handler registered for `config_.ignitionId`
(cooling_system.cpp lines 237-250). -/
def CoolingSystem.handleIgnitionFrame (s : CoolingSystem) (data : List Nat) : CoolingSystem :=
  if 1 ≤ data.length then
    let newIgnition : Bool := data.getD 0 0 != 0
    if newIgnition ≠ s.ctx.ignition then
      let s1 : CoolingSystem := { s with ctx := { s.ctx with ignition := newIgnition } }
      if newIgnition then s1.processEvent SystemEvent.IGNITION_ON
      else s1.processEvent SystemEvent.IGNITION_OFF
    else s
  else s

/-- The temperature handler registered for `config_.tempSensorId`
(cooling_system.cpp lines 214-220): big-endian 16-bit value in tenths of a
degree.  The payload bytes are `uint8_t`, modelled by reducing mod 256. -/
def CoolingSystem.handleTempFrame (cfg : Config) (s : CoolingSystem)
    (data : List Nat) (now : ℚ) : CoolingSystem :=
  if 2 ≤ data.length then
    let tempRaw : Nat := (data.getD 0 0 % 256) * 256 + (data.getD 1 0 % 256)
    CoolingSystem.handleTemperature cfg s now ((tempRaw : ℚ) / 10)
  else s

/-- One inbound stimulus to the supervisor: a CAN frame delivered to the
registered handlers (with the clock reading at delivery), or the deferred
`INIT_COMPLETE` post from the init-timer thread. -/
inductive CANInput where
  | frame (id : Nat) (data : List Nat) (now : ℚ)
  | initComplete

/-- Frame dispatch across the three registered handlers.  `registerHandler`
stores handlers in a map keyed by id, so a later registration overwrites an
earlier one; the registration order is temperature, level, ignition
(cooling_system.cpp lines 212-251), hence ignition wins a key collision. -/
def CoolingSystem.step (cfg : Config) (s : CoolingSystem) : CANInput → CoolingSystem
  | CANInput.frame id data now =>
      if id = cfg.ignitionId then s.handleIgnitionFrame data
      else if id = cfg.levelSensorId then s.handleLevelFrame data
      else if id = cfg.tempSensorId then s.handleTempFrame cfg data now
      else s
  | CANInput.initComplete => s.postInitComplete

/-- Run a sequence of inputs. -/
def CoolingSystem.run (cfg : Config) (s : CoolingSystem) (inputs : List CANInput) :
    CoolingSystem :=
  inputs.foldl (CoolingSystem.step cfg) s

/-- The fan PID parameters used by the `CoolingSystem` constructor
(cooling_system.cpp lines 32-35): kp 2.5, ki 0.5, kd 0.1, setpoint
`config.tempTarget`, output range [0, 100], integral range [-50, 50]. -/
def defaultPIDParams (cfg : Config) : Parameters :=
  ⟨5/2, 1/2, 1/10, cfg.tempTarget, 0, 100, -50, 50⟩

/-- The supervisor state right after the `CoolingSystem` constructor
(cooling_system.cpp lines 29-48): OFF, 25 °C, level OK, ignition off, all
outputs cleared. -/
def CoolingSystem.start (cfg : Config) : CoolingSystem :=
  ⟨SystemState.OFF, ⟨25, true, false, false, false, 0,
    PIDController.init (defaultPIDParams cfg)⟩⟩

/-- The default configuration (every `Config` field at its default). -/
def cfg0 : Config := {}

/-! ## CAN bus simulator (`canbus_simulator.cpp`) -/

/-- `CANMessage` (canbus_simulator.h lines 37-42).  `data` holds the copied
payload prefix of the stated length. -/
structure CANMessage where
  id : Nat
  data : List Nat
  length : Nat
  timestamp : ℚ
deriving Repr, DecidableEq

/-- The state of a `CANBusSimulator` touched by `sendMessage`
(canbus_simulator.h lines 65-79): running flag, TX queue and the two
counters.  The source has no drop counter and no queue capacity. -/
structure CANBusSimulator where
  nodeId : Nat
  running : Bool
  txQueue : List CANMessage
  txCount : Nat
  rxCount : Nat
deriving Repr, DecidableEq

/-- `CANBusSimulator::sendMessage` (canbus_simulator.cpp lines 55-71):
reject when not running or the length exceeds 8; otherwise timestamp,
copy the first `length` payload bytes, unconditionally push to the TX
queue and return true. -/
def CANBusSimulator.sendMessage (bus : CANBusSimulator) (id : Nat)
    (data : List Nat) (length : Nat) (now : ℚ) : Bool × CANBusSimulator :=
  if bus.running = false ∨ 8 < length then (false, bus)
  else (true, { bus with txQueue := bus.txQueue ++ [⟨id, data.take length, length, now⟩] })

/-! ## Lock discipline of receive dispatch (`canbus_simulator.cpp`)

The claim about dispatch is about which thread holds `handlerMutex_` while a
handler runs, so we embed the lock-relevant shape of the code as a small
action trace over that one mutex, executed by the receive worker thread.
`std::mutex` is not recursive: acquiring it while the same thread already
holds it never succeeds. -/

/-- One action of the receive worker on `handlerMutex_`: acquire, release,
or run a handler whose body performs its own actions. -/
inductive BusAction where
  | lock
  | unlock
  | invoke (body : List BusAction)

/-- Execute a trace, tracking how many times the thread currently holds the
mutex.  Acquiring while already held (`std::mutex` is non-recursive) blocks
forever: the run returns `none` (deadlock). -/
def lockDepthRun : List BusAction → Nat → Option Nat
  | [], d => some d
  | BusAction.lock :: rest, d =>
      if 0 < d then none else lockDepthRun rest (d + 1)
  | BusAction.unlock :: rest, d => lockDepthRun rest (d - 1)
  | BusAction.invoke body :: rest, d =>
      match lockDepthRun body d with
      | none => none
      | some d2 => lockDepthRun rest d2

/-- The `handlerMutex_` actions of `registerHandler`
(canbus_simulator.cpp lines 73-76): lock_guard around the map update. -/
def registerHandlerTrace : List BusAction := [BusAction.lock, BusAction.unlock]

/-- The `handlerMutex_` actions of the dispatch section of `receiveThread`
(canbus_simulator.cpp lines 99-106): the handler is invoked inside the
`lock_guard` scope, before the lock is released. -/
def receiveDispatchTrace (handlerBody : List BusAction) : List BusAction :=
  [BusAction.lock, BusAction.invoke handlerBody, BusAction.unlock]

/-- Modelled from the spec: the copy-out-then-invoke dispatch the claim
requires ("copy the handler out of the table under the lock, release the
lock, then invoke the copy"). -/
def specDispatchTrace (handlerBody : List BusAction) : List BusAction :=
  [BusAction.lock, BusAction.unlock, BusAction.invoke handlerBody]

/-! ## Concrete fixtures used by the theorems below -/

/-- Cold start (ignition on, init complete) followed by a critical
temperature frame: `0x100 = {0x03, 0x70}` is 880 tenths = 88.0 °C. -/
def emergencyTrace : List CANInput :=
  [CANInput.frame 0x102 [1] 0, CANInput.initComplete, CANInput.frame 0x100 [3, 112] 1]

/-- Cold start followed by a low-level frame `0x101 = {00}`. -/
def lowCoolantTrace : List CANInput :=
  [CANInput.frame 0x102 [1] 0, CANInput.initComplete, CANInput.frame 0x101 [0] 0]

/-- Cold start followed by a temperature frame `0x100 = {0x02, 0x74}`,
i.e. 628 tenths = 62.8 °C, which is above the fan-start threshold. -/
def fanSpeedTrace : List CANInput :=
  [CANInput.frame 0x102 [1] 0, CANInput.initComplete, CANInput.frame 0x100 [2, 116] 1]

/-- A running bus whose TX queue already holds 1024 frames. -/
def busFull : CANBusSimulator :=
  ⟨1, true, List.replicate 1024 ⟨0x100, List.replicate 8 0, 8, 0⟩, 0, 0⟩

/-- The PID parameter set of the repository's own unit tests
(tests/test_pid.cpp SetUp): kp 1, ki 0.1, kd 0.01, setpoint 50,
output range [0, 100], integral range [-100, 100]. -/
def pidTest : PIDController :=
  PIDController.init ⟨1, 1/10, 1/100, 50, 0, 100, -100, 100⟩

/-- A concrete transition for exercising the generic engine: from state
`false` to state `true`, with a guard that accepts and an action adding 100. -/
def witnessTransition : Transition Bool Unit Nat :=
  ⟨false, (), true, some (fun _ _ => true), some (fun n => n + 100)⟩

/-- A concrete two-state machine: every state has an onEnter (adds 10 in
state `true`, 1 in state `false`) and an onExit (doubles the context). -/
def witnessSM : StateMachine Bool Unit Nat where
  currentState := false
  states := fun s => some ⟨some (fun n => n + (if s then 10 else 1)), some (fun n => n * 2)⟩
  transitions := fun s _ =>
    match s with
    | false => some witnessTransition
    | true => none

/-- A supervisor in RUNNING with coolant level OK and a freshly constructed
fan PID. -/
def runningState : CoolingSystem :=
  ⟨SystemState.RUNNING, ⟨65, true, true, true, false, 0,
    PIDController.init (defaultPIDParams cfg0)⟩⟩

/-- A supervisor in OFF with the coolant level low and ignition off. -/
def offLowState : CoolingSystem :=
  ⟨SystemState.OFF, ⟨25, false, false, false, false, 0,
    PIDController.init (defaultPIDParams cfg0)⟩⟩

/-! ## Theorems -/

/-- When the clamp range is nonempty, a clamped value lies inside it. -/
theorem clampQ_mem {lo hi : ℚ} (v : ℚ) (h : lo ≤ hi) :
    lo ≤ clampQ v lo hi ∧ clampQ v lo hi ≤ hi := by
  unfold clampQ
  split_ifs with h1 h2
  · exact ⟨le_refl lo, h⟩
  · exact ⟨h, le_refl hi⟩
  · exact ⟨le_of_not_lt h1, le_of_not_lt h2⟩

/-- Clamping a value already inside the range is the identity. -/
theorem clampQ_of_mem {lo hi v : ℚ} (h1 : lo ≤ v) (h2 : v ≤ hi) : clampQ v lo hi = v := by
  unfold clampQ
  split_ifs with a b
  · linarith
  · linarith
  · rfl

/-- `calculate` never changes the parameter block. -/
theorem calculate_params (c : PIDController) (now pv : ℚ) :
    ((c.calculate now pv).2).params = c.params := rfl

/-- A single `calculate` output is the clamp of the PID sum to the output range. -/
theorem calculate_output_mem (c : PIDController) (now pv : ℚ)
    (h : c.params.outputMin ≤ c.params.outputMax) :
    c.params.outputMin ≤ (c.calculate now pv).1 ∧
    (c.calculate now pv).1 ≤ c.params.outputMax :=
  clampQ_mem _ h

/-- A single `calculate` leaves the stored integral inside the integral range. -/
theorem calculate_integral_mem (c : PIDController) (now pv : ℚ)
    (h : c.params.integralMin ≤ c.params.integralMax) :
    c.params.integralMin ≤ ((c.calculate now pv).2).integral ∧
    ((c.calculate now pv).2).integral ≤ c.params.integralMax :=
  clampQ_mem _ h

/-- C6: `PIDController::calculate` follows the specified algorithm: dt is
0.1 s on the first call since construction or reset and `now - lastTime`
otherwise; error is `setpoint - process`; the integral is updated to
`clamp(integral + error*dt, integralMin, integralMax)`; the derivative
becomes `(error - lastError)/dt` only when not the first call and dt > 0 and
is otherwise left unchanged; the return value is
`clamp(kp*error + ki*integral + kd*derivative, outputMin, outputMax)`; and
lastError, lastTime and the first-call flag are then updated. -/
theorem claimC6 (c : PIDController) (now pv : ℚ) :
    c.calculate now pv = c.calculateSpec now pv := rfl

/-- C8: with a nonempty integral range and a nonempty output range, every
value returned along any sequence of `calculate` calls lies in
[outputMin, outputMax], and after at least one call the stored integral lies
in [integralMin, integralMax]. -/
theorem claimC8 (c : PIDController) (inputs : List (ℚ × ℚ))
    (hI : c.params.integralMin ≤ c.params.integralMax)
    (hO : c.params.outputMin ≤ c.params.outputMax) :
    (∀ o ∈ (c.run inputs).1, c.params.outputMin ≤ o ∧ o ≤ c.params.outputMax) ∧
    (inputs ≠ [] →
      c.params.integralMin ≤ ((c.run inputs).2).integral ∧
      ((c.run inputs).2).integral ≤ c.params.integralMax) := by
  induction inputs generalizing c with
  | nil =>
      refine ⟨?_, ?_⟩
      · intro o ho
        simp [PIDController.run] at ho
      · intro h
        exact absurd rfl h
  | cons p rest ih =>
      obtain ⟨now, pv⟩ := p
      have hparams : ((c.calculate now pv).2).params = c.params := rfl
      have hrec := ih (c.calculate now pv).2 (by rw [hparams]; exact hI)
        (by rw [hparams]; exact hO)
      refine ⟨?_, ?_⟩
      · intro o ho
        simp only [PIDController.run, List.mem_cons] at ho
        rcases ho with rfl | hmem
        · exact calculate_output_mem c now pv hO
        · have hh := hrec.1 o hmem
          rw [hparams] at hh
          exact hh
      · intro _
        cases rest with
        | nil =>
            simpa [PIDController.run] using calculate_integral_mem c now pv hI
        | cons q qs =>
            have hh := hrec.2 (by simp)
            rw [hparams] at hh
            simpa [PIDController.run] using hh

/-- Witness for C8 at the unit tests' parameter set and two concrete calls. -/
theorem claimC8_wit :
    (pidTest.params.integralMin ≤ pidTest.params.integralMax ∧
     pidTest.params.outputMin ≤ pidTest.params.outputMax) ∧
    (∀ o ∈ (pidTest.run [(0, 40), (1/10, 45)]).1,
        pidTest.params.outputMin ≤ o ∧ o ≤ pidTest.params.outputMax) :=
  ⟨by constructor <;> norm_num [pidTest, PIDController.init],
   (claimC8 pidTest [(0, 40), (1/10, 45)]
      (by norm_num [pidTest, PIDController.init])
      (by norm_num [pidTest, PIDController.init])).1⟩

/-- C9: when both clamp ranges contain zero, `reset()` followed by
`calculate(setpoint)` (a first call, so dt = 0.1) returns exactly 0. -/
theorem claimC9 (c : PIDController) (now : ℚ)
    (hI1 : c.params.integralMin ≤ 0) (hI2 : 0 ≤ c.params.integralMax)
    (hO1 : c.params.outputMin ≤ 0) (hO2 : 0 ≤ c.params.outputMax) :
    ((c.reset).calculate now c.params.setpoint).1 = 0 := by
  have h1 : clampQ 0 c.params.integralMin c.params.integralMax = 0 := clampQ_of_mem hI1 hI2
  have h2 : clampQ 0 c.params.outputMin c.params.outputMax = 0 := clampQ_of_mem hO1 hO2
  simp [PIDController.calculate, PIDController.reset, h1, h2]

/-- Witness for C9 at the unit tests' parameter set. -/
theorem claimC9_wit :
    (pidTest.params.integralMin ≤ 0 ∧ 0 ≤ pidTest.params.integralMax ∧
     pidTest.params.outputMin ≤ 0 ∧ 0 ≤ pidTest.params.outputMax) ∧
    ((pidTest.reset).calculate 3 pidTest.params.setpoint).1 = 0 :=
  ⟨by refine ⟨?_, ?_, ?_, ?_⟩ <;> norm_num [pidTest, PIDController.init],
   claimC9 pidTest 3
     (by norm_num [pidTest, PIDController.init])
     (by norm_num [pidTest, PIDController.init])
     (by norm_num [pidTest, PIDController.init])
     (by norm_num [pidTest, PIDController.init])⟩

/-- C7: `processEvent` returns false with no state change and no callback
when the transition is absent or its guard refuses; otherwise it runs
onExit of the old state, then the transition action, then moves to the
target state, then runs onEnter of the target, in exactly that order, and
returns true. -/
theorem claimC7 {S E C : Type} (m : StateMachine S E C) (e : E) (ctx : C) :
    (m.transitions m.currentState e = none →
        m.processEvent e ctx = (false, m, ctx, [])) ∧
    (∀ t g, m.transitions m.currentState e = some t → t.guard = some g →
        g ctx e = false → m.processEvent e ctx = (false, m, ctx, [])) ∧
    (∀ t, m.transitions m.currentState e = some t →
        (t.guard = none ∨ ∃ g, t.guard = some g ∧ g ctx e = true) →
        m.processEvent e ctx = (true, { m with currentState := t.toState },
          optApply (m.enterHandler t.toState)
            (optApply t.action (optApply (m.exitHandler m.currentState) ctx)),
          optCalls (m.exitHandler m.currentState) (CallbackCall.exited m.currentState) ++
            optCalls t.action CallbackCall.acted ++
            optCalls (m.enterHandler t.toState) (CallbackCall.entered t.toState))) := by
  refine ⟨?_, ?_, ?_⟩
  · intro h
    simp [StateMachine.processEvent, h]
  · intro t g ht hg hfalse
    simp [StateMachine.processEvent, ht, hg, hfalse]
  · intro t ht hguard
    rcases hguard with hnone | ⟨g, hg, htrue⟩
    · simp [StateMachine.processEvent, ht, hnone, StateMachine.fire,
        StateMachine.enterHandler]
    · simp [StateMachine.processEvent, ht, hg, htrue, StateMachine.fire,
        StateMachine.enterHandler]

/-- Witness for C7: firing the concrete two-state machine runs exit, action
and enter in order (0 doubles to 0, plus 100, plus 10 on entering `true`). -/
theorem claimC7_wit :
    witnessSM.processEvent () 0 =
      (true, { witnessSM with currentState := true }, 110,
        [CallbackCall.exited false, CallbackCall.acted, CallbackCall.entered true]) := by
  have h := (claimC7 witnessSM () 0).2.2 witnessTransition rfl
    (Or.inr ⟨fun _ _ => true, rfl, rfl⟩)
  simpa [witnessSM, witnessTransition, StateMachine.exitHandler,
    StateMachine.enterHandler, optApply, optCalls] using h

/-- C5: the receive dispatch of the source invokes the handler while still
holding `handlerMutex_`, so a handler that calls `registerHandler` on the
same bus self-deadlocks on the non-recursive mutex; under the dispatch the
claim describes (copy out, release, invoke) the same handler completes. -/
theorem claimC5 :
    lockDepthRun (receiveDispatchTrace registerHandlerTrace) 0 = none ∧
    lockDepthRun (specDispatchTrace registerHandlerTrace) 0 = some 0 := by
  constructor <;>
    simp [receiveDispatchTrace, specDispatchTrace, registerHandlerTrace, lockDepthRun]

/-- C3: with the bus running and its TX queue already holding 1024 frames,
`sendMessage` with a valid length still returns true and enqueues, growing
the queue to 1025 (there is no capacity check and no drop counter in the
source); the TX and RX counters are untouched. -/
theorem claimC3 :
    busFull.txQueue.length = 1024 ∧
    (busFull.sendMessage 0x123 (List.replicate 8 1) 8 0).1 = true ∧
    ((busFull.sendMessage 0x123 (List.replicate 8 1) 8 0).2).txQueue.length = 1025 ∧
    ((busFull.sendMessage 0x123 (List.replicate 8 1) 8 0).2).txCount = busFull.txCount ∧
    ((busFull.sendMessage 0x123 (List.replicate 8 1) 8 0).2).rxCount = busFull.rxCount := by
  have hq : busFull.txQueue = List.replicate 1024 ⟨0x100, List.replicate 8 0, 8, 0⟩ := rfl
  have hs : ((busFull.sendMessage 0x123 (List.replicate 8 1) 8 0).2).txQueue
      = busFull.txQueue ++ [⟨0x123, (List.replicate 8 1).take 8, 8, 0⟩] := rfl
  refine ⟨?_, rfl, ?_, rfl, rfl⟩
  · rw [hq, List.length_replicate]
  · rw [hs, List.length_append, hq, List.length_replicate, List.length_singleton]

/-- C1: the state reached by cold start (ignition on with level OK, init
complete) followed by the temperature frame for 88.0 °C — the very
`handleTemperature` call that triggers the CRITICAL_TEMP transition — is
EMERGENCY_STOP with pump off and fan on, but with fanSpeed 0 instead of the
100 the claimed invariant requires: the fan-control block is gated on the
pre-transition snapshot of the state and overwrites the entry action's
fanSpeed with the truncated PID output (clamped to 0 at 88 °C). -/
theorem claimC1 :
    (CoolingSystem.run cfg0 (CoolingSystem.start cfg0) emergencyTrace).sysState
        = SystemState.EMERGENCY_STOP ∧
    (CoolingSystem.run cfg0 (CoolingSystem.start cfg0) emergencyTrace).ctx.pumpOn = false ∧
    (CoolingSystem.run cfg0 (CoolingSystem.start cfg0) emergencyTrace).ctx.fanOn = true ∧
    (CoolingSystem.run cfg0 (CoolingSystem.start cfg0) emergencyTrace).ctx.fanSpeed = 0 := by
  norm_num [CoolingSystem.run, emergencyTrace, cfg0, CoolingSystem.start,
    CoolingSystem.step, CoolingSystem.handleIgnitionFrame, CoolingSystem.handleLevelFrame,
    CoolingSystem.handleTempFrame, CoolingSystem.handleTemperature,
    CoolingSystem.postInitComplete, CoolingSystem.processEvent, CoolingSystem.machine,
    StateMachine.processEvent, StateMachine.fire, StateMachine.exitHandler,
    StateMachine.enterHandler, coolingStates, coolingTransitions, coolingOnEnter,
    optApply, optCalls, defaultPIDParams, PIDController.init, PIDController.calculate,
    PIDController.reset, clampQ, cppTruncToInt]

/-- Counterexample to C2 as stated: in RUNNING, a single level frame
`0x101 = {00}` moves the system to ERROR in the same handler invocation —
after 0 seconds of low level, not after 3 seconds. -/
theorem claimC2_cex :
    (CoolingSystem.run cfg0 (CoolingSystem.start cfg0) (lowCoolantTrace.take 2)).sysState
        = SystemState.RUNNING ∧
    (CoolingSystem.run cfg0 (CoolingSystem.start cfg0) lowCoolantTrace).sysState
        = SystemState.ERROR := by
  norm_num [CoolingSystem.run, lowCoolantTrace, cfg0, CoolingSystem.start,
    CoolingSystem.step, CoolingSystem.handleIgnitionFrame, CoolingSystem.handleLevelFrame,
    CoolingSystem.handleTempFrame, CoolingSystem.handleTemperature,
    CoolingSystem.postInitComplete, CoolingSystem.processEvent, CoolingSystem.machine,
    StateMachine.processEvent, StateMachine.fire, StateMachine.exitHandler,
    StateMachine.enterHandler, coolingStates, coolingTransitions, coolingOnEnter,
    optApply, optCalls, defaultPIDParams, PIDController.init, PIDController.calculate,
    PIDController.reset, clampQ, cppTruncToInt]

/-- C2 (amended): while RUNNING with the level previously OK, a level frame
whose first byte is 0 posts LOW_COOLANT and transitions the supervisor to
ERROR immediately (clearing the outputs); no debounce interval is applied. -/
theorem claimC2 (s : CoolingSystem) (hrun : s.sysState = SystemState.RUNNING)
    (hlvl : s.ctx.levelOk = true) :
    (s.handleLevelFrame [0]).sysState = SystemState.ERROR ∧
    (s.handleLevelFrame [0]).ctx.levelOk = false ∧
    (s.handleLevelFrame [0]).ctx.pumpOn = false ∧
    (s.handleLevelFrame [0]).ctx.fanOn = false ∧
    (s.handleLevelFrame [0]).ctx.fanSpeed = 0 := by
  obtain ⟨st, tmp, lv, ig, p, f, fs, pid⟩ := s
  have hrun2 : st = SystemState.RUNNING := hrun
  have hlvl2 : lv = true := hlvl
  subst hrun2
  subst hlvl2
  exact ⟨rfl, rfl, rfl, rfl, rfl⟩

/-- Witness for C2 (amended) at a concrete RUNNING state. -/
theorem claimC2_wit :
    runningState.sysState = SystemState.RUNNING ∧
    runningState.ctx.levelOk = true ∧
    (runningState.handleLevelFrame [0]).sysState = SystemState.ERROR :=
  ⟨rfl, rfl, (claimC2 runningState rfl rfl).1⟩

/-- Counterexample to C4 as stated: cold start followed by the temperature
frame for 62.8 °C leaves the system RUNNING with fanSpeed 5 — the PID output
is 5.61 and the source truncates it with `static_cast<int>` — whereas the
claimed `round` of the same PID output is 6. -/
theorem claimC4_cex :
    (CoolingSystem.run cfg0 (CoolingSystem.start cfg0) fanSpeedTrace).sysState
        = SystemState.RUNNING ∧
    (CoolingSystem.run cfg0 (CoolingSystem.start cfg0) fanSpeedTrace).ctx.fanSpeed = 5 ∧
    ((PIDController.init (defaultPIDParams cfg0)).calculate 1 (314/5)).1 = 561/100 ∧
    roundQ (((PIDController.init (defaultPIDParams cfg0)).calculate 1 (314/5)).1) = 6 := by
  norm_num [CoolingSystem.run, fanSpeedTrace, cfg0, CoolingSystem.start,
    CoolingSystem.step, CoolingSystem.handleIgnitionFrame, CoolingSystem.handleLevelFrame,
    CoolingSystem.handleTempFrame, CoolingSystem.handleTemperature,
    CoolingSystem.postInitComplete, CoolingSystem.processEvent, CoolingSystem.machine,
    StateMachine.processEvent, StateMachine.fire, StateMachine.exitHandler,
    StateMachine.enterHandler, coolingStates, coolingTransitions, coolingOnEnter,
    optApply, optCalls, defaultPIDParams, PIDController.init, PIDController.calculate,
    PIDController.reset, clampQ, cppTruncToInt, roundQ]

/-- C4 (amended): for a temperature delivered while RUNNING: above
FAN_START (60) the fan turns on and fanSpeed becomes the PID output
truncated toward zero (`static_cast<int>`, not rounded); below
FAN_START - FAN_HYSTERESIS (55) the fan turns off, fanSpeed becomes 0 and
the PID is reset; inside [55, 60] fan state and PID are unchanged. -/
theorem claimC4 (s : CoolingSystem) (now temp : ℚ)
    (hrun : s.sysState = SystemState.RUNNING) :
    ((60 : ℚ) < temp →
      (CoolingSystem.handleTemperature cfg0 s now temp).ctx.fanOn = true ∧
      (CoolingSystem.handleTemperature cfg0 s now temp).ctx.fanSpeed
        = cppTruncToInt ((s.ctx.fanPID.calculate now temp).1) ∧
      (CoolingSystem.handleTemperature cfg0 s now temp).ctx.fanPID
        = (s.ctx.fanPID.calculate now temp).2) ∧
    (temp < (55 : ℚ) →
      (CoolingSystem.handleTemperature cfg0 s now temp).ctx.fanOn = false ∧
      (CoolingSystem.handleTemperature cfg0 s now temp).ctx.fanSpeed = 0 ∧
      (CoolingSystem.handleTemperature cfg0 s now temp).ctx.fanPID
        = s.ctx.fanPID.reset) ∧
    ((55 : ℚ) ≤ temp → temp ≤ (60 : ℚ) →
      (CoolingSystem.handleTemperature cfg0 s now temp).ctx.fanOn = s.ctx.fanOn ∧
      (CoolingSystem.handleTemperature cfg0 s now temp).ctx.fanSpeed = s.ctx.fanSpeed ∧
      (CoolingSystem.handleTemperature cfg0 s now temp).ctx.fanPID = s.ctx.fanPID) := by
  obtain ⟨st, tmp, lv, ig, p, f, fs, pid⟩ := s
  have hrun2 : st = SystemState.RUNNING := hrun
  subst hrun2
  refine ⟨?_, ?_, ?_⟩
  · intro h6
    by_cases hc : (85 : ℚ) < temp
    · norm_num [CoolingSystem.handleTemperature, cfg0, hc, h6,
        CoolingSystem.processEvent, CoolingSystem.machine, StateMachine.processEvent,
        StateMachine.fire, StateMachine.exitHandler, StateMachine.enterHandler,
        coolingStates, coolingTransitions, coolingOnEnter, optApply]
    · norm_num [CoolingSystem.handleTemperature, cfg0, hc, h6,
        CoolingSystem.processEvent, CoolingSystem.machine, StateMachine.processEvent,
        StateMachine.fire, StateMachine.exitHandler, StateMachine.enterHandler,
        coolingStates, coolingTransitions, coolingOnEnter, optApply]
  · intro h5
    have hc : ¬ (85 : ℚ) < temp := by linarith
    have h6 : ¬ (60 : ℚ) < temp := by linarith
    norm_num [CoolingSystem.handleTemperature, cfg0, hc, h6, h5,
      CoolingSystem.processEvent, CoolingSystem.machine, StateMachine.processEvent,
      StateMachine.fire, StateMachine.exitHandler, StateMachine.enterHandler,
      coolingStates, coolingTransitions, coolingOnEnter, optApply]
  · intro h55 h60
    have hc : ¬ (85 : ℚ) < temp := by linarith
    have h6 : ¬ (60 : ℚ) < temp := not_lt.mpr h60
    have h5 : ¬ temp < (55 : ℚ) := not_lt.mpr h55
    norm_num [CoolingSystem.handleTemperature, cfg0, hc, h6, h5,
      CoolingSystem.processEvent, CoolingSystem.machine, StateMachine.processEvent,
      StateMachine.fire, StateMachine.exitHandler, StateMachine.enterHandler,
      coolingStates, coolingTransitions, coolingOnEnter, optApply]

/-- Witness for C4 (amended): at 62.8 °C in RUNNING the fan turns on with
the truncated PID output, which evaluates to 5. -/
theorem claimC4_wit :
    runningState.sysState = SystemState.RUNNING ∧
    (60 : ℚ) < 314/5 ∧
    (CoolingSystem.handleTemperature cfg0 runningState 1 (314/5)).ctx.fanOn = true ∧
    (CoolingSystem.handleTemperature cfg0 runningState 1 (314/5)).ctx.fanSpeed = 5 := by
  have h := (claimC4 runningState 1 (314/5) rfl).1 (by norm_num)
  refine ⟨rfl, by norm_num, h.1, ?_⟩
  rw [h.2.1]
  norm_num [runningState, defaultPIDParams, cfg0, PIDController.init,
    PIDController.calculate, clampQ, cppTruncToInt]

/-- A level frame never changes the supervisor state or the stored ignition
flag unless the system is RUNNING (the handler only posts LOW_COOLANT from
RUNNING). -/
theorem handleLevelFrame_fixed (s : CoolingSystem) (data : List Nat)
    (h : ¬ s.sysState = SystemState.RUNNING) :
    (s.handleLevelFrame data).sysState = s.sysState ∧
    (s.handleLevelFrame data).ctx.ignition = s.ctx.ignition := by
  unfold CoolingSystem.handleLevelFrame
  split
  · dsimp only
    split
    · split
      · rename_i hcond
        exact absurd hcond.2 h
      · exact ⟨rfl, rfl⟩
    · exact ⟨rfl, rfl⟩
  · exact ⟨rfl, rfl⟩

/-- Folding any sequence of level frames over a non-RUNNING supervisor
leaves the state and the ignition flag unchanged. -/
theorem levelFrames_fixed (frames : List (List Nat)) :
    ∀ s : CoolingSystem, ¬ s.sysState = SystemState.RUNNING →
      (frames.foldl CoolingSystem.handleLevelFrame s).sysState = s.sysState ∧
      (frames.foldl CoolingSystem.handleLevelFrame s).ctx.ignition = s.ctx.ignition := by
  induction frames with
  | nil => exact fun s _ => ⟨rfl, rfl⟩
  | cons d rest ih =>
      intro s h
      have h1 := handleLevelFrame_fixed s d h
      have h2 := ih (s.handleLevelFrame d) (by rw [h1.1]; exact h)
      simp only [List.foldl]
      exact ⟨h2.1.trans h1.1, h2.2.trans h1.2⟩

/-- C10: an ignition-on frame arriving in OFF while the level is low latches
`ignition = true` but the guarded OFF → INITIALIZING transition is refused,
so the system stays OFF; a second ignition-on frame is a no-op (the handler
is edge-triggered on the stored flag), and no sequence of level frames alone
ever moves the system out of OFF. -/
theorem claimC10 (s : CoolingSystem) (hoff : s.sysState = SystemState.OFF)
    (hlvl : s.ctx.levelOk = false) (hig : s.ctx.ignition = false) :
    (s.handleIgnitionFrame [1]).sysState = SystemState.OFF ∧
    (s.handleIgnitionFrame [1]).ctx.ignition = true ∧
    (s.handleIgnitionFrame [1]).handleIgnitionFrame [1] = s.handleIgnitionFrame [1] ∧
    ∀ frames : List (List Nat),
      (frames.foldl CoolingSystem.handleLevelFrame (s.handleIgnitionFrame [1])).sysState
        = SystemState.OFF := by
  obtain ⟨st, tmp, lv, ig, p, f, fs, pid⟩ := s
  have hoff2 : st = SystemState.OFF := hoff
  have hlvl2 : lv = false := hlvl
  have hig2 : ig = false := hig
  subst hoff2
  subst hlvl2
  subst hig2
  refine ⟨rfl, rfl, rfl, ?_⟩
  intro frames
  exact (levelFrames_fixed frames _ (fun hc => SystemState.noConfusion hc)).1

/-- Witness for C10 at a concrete OFF state with low coolant: the ignition
frame leaves the system OFF and three later level frames (restore, drop,
restore) still leave it OFF. -/
theorem claimC10_wit :
    (offLowState.handleIgnitionFrame [1]).sysState = SystemState.OFF ∧
    (([[1], [0], [1]] : List (List Nat)).foldl CoolingSystem.handleLevelFrame
        (offLowState.handleIgnitionFrame [1])).sysState = SystemState.OFF := by
  have h := claimC10 offLowState rfl rfl rfl
  exact ⟨h.1, h.2.2.2 [[1], [0], [1]]⟩

end EAE
